import Mathlib

/-
Verification of the omio-backend trip-aggregation service.

The development shallowly embeds the request-handling core of the
repository: the dynamic SQL builder `buildQuery` of the
`/api/combined-trips` handler in `src/server.js`, its cache-key
derivation, its result aggregation (`processResults` and the merged
response), the pagination parsing of `/api/:provider/trips`, the cache
statistics bookkeeping of the two server variants, and the
per-origin/destination/route handlers of the unnamed server file that
read the undeclared identifier `tripCacheMap`.

JavaScript runtime behaviour that the handlers rely on (truthiness of
query parameters, `parseInt`, `String.split`, `JSON.stringify` field
order, object rest-destructuring, `x || 0` defaulting, reference errors
for undeclared identifiers) is modelled by small explicit functions.
-/

/-- A JavaScript value as it appears in rows, parameter lists and JSON
responses: a string, a number (modelled as an integer, all numbers used
by the handlers are integral), a boolean, or null. -/
inductive JsVal where
  | str (s : String)
  | num (n : Int)
  | bool (b : Bool)
  | null
deriving DecidableEq, Repr

/-- A JavaScript object as node-postgres returns a row: an ordered list
of field-name/value pairs with distinct keys. -/
def JsRow := List (String × JsVal)
deriving DecidableEq, Repr

/-- JavaScript truthiness of an optional string query parameter:
`undefined` (absent) and the empty string are falsy, every other string
is truthy. -/
def jsTruthy : Option String → Bool
  | none => false
  | some s => s ≠ ""

/-- JavaScript `s.split(sep)` for a one-character separator, the only
form the handlers use: splitting the empty string yields `[""]`, and
adjacent separators yield empty fragments, as in JavaScript. -/
def jsSplitCharAux (sep : Char) : List Char → List Char → List String
  | [], acc => [String.mk acc.reverse]
  | c :: rest, acc =>
    if c = sep then String.mk acc.reverse :: jsSplitCharAux sep rest []
    else jsSplitCharAux sep rest (c :: acc)

/-- JavaScript `s.split(sep)` on a string. -/
def jsSplitChar (sep : Char) (s : String) : List String :=
  jsSplitCharAux sep s.toList []

/-- JavaScript array indexing as used after destructuring
`const [day, month, year] = travel_date.split('-')`: a missing index
yields `undefined`, which stringifies to `"undefined"` inside a template
literal. -/
def jsIdx (l : List String) (i : Nat) : String :=
  (l.get? i).getD "undefined"

/-- JavaScript `array.map((_, i) => g(i))` starting at index `i0`: the
callback of the placeholder maps in `buildQuery` ignores the element and
uses only the running index. -/
def jsMapIdx (g : Nat → String) : List String → Nat → List String
  | [], _ => []
  | _ :: rest, i => g i :: jsMapIdx g rest (i + 1)

/-- JavaScript `parseInt` restricted to the decimal inputs the handlers
receive: leading whitespace is skipped, then an optional sign and
leading decimal digits are read; no digits yields `NaN`, modelled as
`none`. -/
def jsParseInt (s : String) : Option Int :=
  let cs := s.toList.dropWhile Char.isWhitespace
  let signed : Int × List Char :=
    match cs with
    | '-' :: r => (-1, r)
    | '+' :: r => (1, r)
    | r => (1, r)
  let digits := signed.2.takeWhile Char.isDigit
  if digits.isEmpty then none
  else some (signed.1 * digits.foldl (fun acc c => acc * 10 + ((c.toNat : Int) - 48)) 0)

/-- JavaScript `toUpperCase` on the ASCII strings the handlers
compare, modelled character-wise. -/
def jsToUpper (s : String) : String := String.mk (s.toList.map Char.toUpper)

/-- JavaScript `toLowerCase` on the ASCII strings the handlers
compare, modelled character-wise. -/
def jsToLower (s : String) : String := String.mk (s.toList.map Char.toLower)

/-- JavaScript `v || d` for an integer that may be `NaN` (`none`): `NaN`
and `0` are falsy and fall back to the default. -/
def jsOrInt (v : Option Int) (d : Int) : Int :=
  match v with
  | none => d
  | some n => if n = 0 then d else n

/-- One built provider query of `/api/combined-trips`
(`src/server.js:890-991`): the SQL text and the ordered parameter
list. -/
structure BuiltQuery where
  query : String
  params : List JsVal
deriving DecidableEq, Repr

/-- The local variables of the `/api/combined-trips` handler after it
has parsed the request (`src/server.js:844-867`): the comma-split
multi-value filters, the raw optional date parameters, the raw sort
parameters, and the clamped limit and computed offset that are pushed as
the final two bound parameters. -/
structure CombinedFilters where
  origins : List String
  destinations : List String
  transportTypes : List String
  operatorNames : List String
  travel_date : Option String
  start_date : Option String
  end_date : Option String
  timeline : Option String
  sort_by : String
  sort_order : String
  limitNum : Int
  offset : Int
deriving DecidableEq, Repr

/-- Accumulator threaded through the condition-building steps of
`buildQuery`: the `params` array, the `conditions` array and
`paramIndex` of `src/server.js:891-893`. -/
structure BuildAcc where
  params : List JsVal
  conditions : List String
  paramIndex : Nat
deriving DecidableEq, Repr

/-- One `IN (...)` filter block of `buildQuery`
(`src/server.js:896-922`): when the value list is non-empty, push every
value as a bound parameter, append a condition made of the code-chosen
column name and `$k` placeholders, and advance `paramIndex` by the
number of values. -/
def addInFilter (column : String) (values : List String) (acc : BuildAcc) : BuildAcc :=
  if values.length > 0 then
    { params := acc.params ++ values.map JsVal.str
      conditions := acc.conditions ++
        ["(" ++ column ++ " IN (" ++
          String.intercalate "," (jsMapIdx (fun i => "$" ++ toString (acc.paramIndex + i)) values 0)
          ++ "))"]
      paramIndex := acc.paramIndex + values.length }
  else acc

/-- The reformatting `src/server.js:927-928` applies to `travel_date`:
split on `-` and reassemble as `year-month-day`, with missing components
becoming the string `undefined` exactly as in the template literal. -/
def formatTravelDate (td : String) : String :=
  let parts := jsSplitChar '-' td
  jsIdx parts 2 ++ "-" ++ jsIdx parts 1 ++ "-" ++ jsIdx parts 0

/-- The `travel_date` block of `buildQuery` (`src/server.js:925-935`):
for a truthy `travel_date` the reformatted date is pushed as a bound
parameter and a `DATE(travel_date) = $k` condition is appended. The
`try`/`catch` in the source is dead for string inputs: `split` and
template literals never throw. -/
def addTravelDate (travel_date : Option String) (acc : BuildAcc) : BuildAcc :=
  if jsTruthy travel_date then
    { params := acc.params ++ [JsVal.str (formatTravelDate (travel_date.getD ""))]
      conditions := acc.conditions ++ ["DATE(travel_date) = $" ++ toString acc.paramIndex]
      paramIndex := acc.paramIndex + 1 }
  else acc

/-- The timeline-preset conditions of `buildQuery`
(`src/server.js:944-973`), keyed by the lower-cased `timeline`
parameter; an unrecognised preset appends nothing. -/
def timelineConditions (t : String) : List String :=
  if t = "today" then ["travel_date = CURRENT_DATE"]
  else if t = "yesterday" then ["travel_date = CURRENT_DATE - INTERVAL \x271 day\x27"]
  else if t = "last 7 days" then ["travel_date >= CURRENT_DATE - INTERVAL \x277 days\x27"]
  else if t = "last 14 days" then ["travel_date >= CURRENT_DATE - INTERVAL \x2714 days\x27"]
  else if t = "last 28 days" then ["travel_date >= CURRENT_DATE - INTERVAL \x2728 days\x27"]
  else if t = "last 30 days" then ["travel_date >= CURRENT_DATE - INTERVAL \x2730 days\x27"]
  else if t = "last 90 days" then ["travel_date >= CURRENT_DATE - INTERVAL \x2790 days\x27"]
  else if t = "this month" then ["travel_date >= date_trunc(\x27month\x27, CURRENT_DATE)"]
  else if t = "this year" then ["travel_date >= date_trunc(\x27year\x27, CURRENT_DATE)"]
  else []

/-- The date-range block of `buildQuery` (`src/server.js:938-974`): an
explicit truthy `start_date`/`end_date` pair becomes a `BETWEEN` with
two bound parameters and takes precedence; otherwise a truthy `timeline`
appends its preset condition, which carries no parameters. -/
def addDateRange (start_date end_date timeline : Option String) (acc : BuildAcc) : BuildAcc :=
  if jsTruthy start_date && jsTruthy end_date then
    { params := acc.params ++ [JsVal.str (start_date.getD ""), JsVal.str (end_date.getD "")]
      conditions := acc.conditions ++
        ["travel_date BETWEEN $" ++ toString acc.paramIndex ++ " AND $" ++ toString (acc.paramIndex + 1)]
      paramIndex := acc.paramIndex + 2 }
  else if jsTruthy timeline then
    { acc with conditions := acc.conditions ++ timelineConditions (jsToLower (timeline.getD "")) }
  else acc

/-- The condition/parameter accumulation of `buildQuery`
(`src/server.js:891-974`) in source order: origins, destinations,
transport types, operator names, travel date, then the explicit range or
timeline preset.  The origin and destination columns depend on the
table: `trips` uses `origin`/`destination`, `bookaway_trips` uses
`from_location`/`to_location`. -/
def buildConditions (tableName : String) (f : CombinedFilters) : BuildAcc :=
  let acc : BuildAcc := { params := [], conditions := [], paramIndex := 1 }
  let acc := addInFilter (if tableName = "trips" then "origin" else "from_location") f.origins acc
  let acc := addInFilter (if tableName = "trips" then "destination" else "to_location") f.destinations acc
  let acc := addInFilter "transport_type" f.transportTypes acc
  let acc := addInFilter "operator_name" f.operatorNames acc
  let acc := addTravelDate f.travel_date acc
  addDateRange f.start_date f.end_date f.timeline acc

/-- The sort-column whitelist check of `buildQuery`
(`src/server.js:982`): a column outside the whitelist falls back to
`departure_time`. -/
def safeSortBy (sort_by : String) : String :=
  if ["departure_time", "arrival_time", "price_inr", "duration_minutes"].contains sort_by
  then sort_by else "departure_time"

/-- The sort-direction whitelist check of `buildQuery`
(`src/server.js:983`): the upper-cased direction must be `ASC` or
`DESC`, anything else falls back to `ASC`. -/
def safeSortOrder (sort_order : String) : String :=
  if ["ASC", "DESC"].contains (jsToUpper sort_order) then jsToUpper sort_order else "ASC"

/-- `buildQuery` of the `/api/combined-trips` handler
(`src/server.js:890-991`): assembles the `SELECT` with its
`total_count` scalar subquery repeating the same `WHERE`, the optional
`WHERE`, the whitelisted `ORDER BY`, and the `LIMIT`/`OFFSET`
placeholders whose values are pushed as the last two parameters. -/
def buildQuery (tableName : String) (f : CombinedFilters) : BuiltQuery :=
  let acc := buildConditions tableName f
  let conditions := acc.conditions
  let query := "SELECT *, (SELECT COUNT(*) FROM " ++ tableName ++ " " ++
    (if conditions.length > 0 then "WHERE " ++ String.intercalate " AND " conditions else "")
    ++ ") as total_count FROM " ++ tableName
  let query := if conditions.length > 0
    then query ++ " WHERE " ++ String.intercalate " AND " conditions else query
  let query := query ++ " ORDER BY " ++ safeSortBy f.sort_by ++ " " ++ safeSortOrder f.sort_order
  let query := query ++ " LIMIT $" ++ toString acc.paramIndex ++ " OFFSET $" ++ toString (acc.paramIndex + 1)
  { query := query, params := acc.params ++ [JsVal.num f.limitNum, JsVal.num f.offset] }

/-- The comma-splitting of a multi-value query parameter
(`src/server.js:864-867`): a truthy raw value is split on commas, an
absent or empty one gives the empty list. -/
def parseListParam : Option String → List String
  | none => []
  | some s => if s = "" then [] else jsSplitChar ',' s

/-- JSON string escaping as performed by `JSON.stringify` for the
characters that can occur in the handler's parameters: backslash and
double quote are escaped (control characters, which cannot appear in URL
query values seen by the handler, are not modelled). -/
def jsonEscape (s : String) : String :=
  s.toList.foldl (fun acc c =>
    acc ++ (if c = '\\' then "\\\\" else if c = '"' then "\\\"" else String.singleton c)) ""

/-- A JSON string literal. -/
def jsonStr (s : String) : String := "\"" ++ jsonEscape s ++ "\""

/-- A JSON array of strings, in element order, as `JSON.stringify`
produces it. -/
def jsonArr (l : List String) : String :=
  "[" ++ String.intercalate "," (l.map jsonStr) ++ "]"

/-- An optional object member: `JSON.stringify` omits fields whose value
is `undefined`, so an absent query parameter contributes no member. -/
def jsonOptMember (name : String) (v : Option String) : List String :=
  match v with
  | some s => [jsonStr name ++ ":" ++ jsonStr s]
  | none => []

/-- The `JSON.stringify` of the cache-key object of the
`/api/combined-trips` handler (`src/server.js:869-882`): an object
holding the split filter arrays and the remaining parameters, with
members in the literal's field order and `undefined` members omitted. -/
def stringifyCombinedKeyObject (origins destinations operatorNames transportTypes : List String)
    (timeline start_date end_date travel_date : Option String)
    (pageNum limitNum : Int) (sort_by sort_order : String) : String :=
  "\x7b" ++ String.intercalate ","
    ([jsonStr "origins" ++ ":" ++ jsonArr origins,
      jsonStr "destinations" ++ ":" ++ jsonArr destinations,
      jsonStr "operatorNames" ++ ":" ++ jsonArr operatorNames,
      jsonStr "transportTypes" ++ ":" ++ jsonArr transportTypes]
     ++ jsonOptMember "timeline" timeline
     ++ jsonOptMember "start_date" start_date
     ++ jsonOptMember "end_date" end_date
     ++ jsonOptMember "travel_date" travel_date
     ++ [jsonStr "pageNum" ++ ":" ++ toString pageNum,
         jsonStr "limitNum" ++ ":" ++ toString limitNum,
         jsonStr "sort_by" ++ ":" ++ jsonStr sort_by,
         jsonStr "sort_order" ++ ":" ++ jsonStr sort_order]) ++ "\x7d"

/-- The cache key of the `/api/combined-trips` handler
(`src/server.js:869`): the endpoint prefix `combined_trips_` followed
by the stringified key object. -/
def combinedCacheKey (origins destinations operatorNames transportTypes : List String)
    (timeline start_date end_date travel_date : Option String)
    (pageNum limitNum : Int) (sort_by sort_order : String) : String :=
  "combined_trips_" ++ stringifyCombinedKeyObject origins destinations operatorNames
    transportTypes timeline start_date end_date travel_date pageNum limitNum sort_by sort_order

/-- Removal of the `total_count` field by the rest-destructuring
`({ total_count, ...rest }) => rest` in `processResults`
(`src/server.js:1028`). -/
def stripTotalCount (r : JsRow) : JsRow :=
  r.filter (fun kv => kv.1 ≠ "total_count")

/-- The per-provider total read by `processResults`
(`src/server.js:1029`): `results[0]?.total_count || 0`, i.e. the
`total_count` field of the first row, defaulting to `0` when the row
list is empty or the field is missing (for an integral count, `n || 0`
equals `n`). -/
def rowTotalCount (results : List JsRow) : Int :=
  match results.head? with
  | none => 0
  | some r =>
    match r.lookup "total_count" with
    | some (JsVal.num n) => n
    | _ => 0

/-- The `{ items, total }` record produced per provider by
`processResults`. -/
structure ProviderData where
  items : List JsRow
  total : Int
deriving DecidableEq, Repr

/-- `processResults` of the `/api/combined-trips` handler
(`src/server.js:1023-1032`): an empty or missing result set yields no
items and total `0`; otherwise every row minus its `total_count` field
is kept and the total is taken from the first row.  The `source`
argument is accepted but never used, exactly as in the source. -/
def processResults (results : List JsRow) (_source : String) : ProviderData :=
  if results.isEmpty then { items := [], total := 0 }
  else { items := results.map stripTotalCount, total := rowTotalCount results }

/-- `Math.ceil (a / b)` for integers with positive divisor, as used for
`totalPages` (`src/server.js:549` and `src/server.js:1043`). -/
def mathCeilDiv (a b : Int) : Int := -((-a).ediv b)

/-- The merged `/api/combined-trips` response body
(`src/server.js:1037-1045`): the concatenated item lists and the
pagination object, kept as an ordered field list to reflect the exact
JSON members the handler emits. -/
structure CombinedResponse where
  data : List JsRow
  pagination : List (String × JsVal)
deriving DecidableEq, Repr

/-- The result-merging tail of the `/api/combined-trips` handler
(`src/server.js:1001-1045`).  Each provider query promise carries
`.catch(err => [])` (`src/server.js:1005-1018`), so a failed provider
degrades to an empty row list instead of propagating; the two processed
results are concatenated and the pagination object carries exactly the
fields `page`, `limit`, `total` and `totalPages`, with `total` the sum
of the per-provider totals. -/
def combinedTripsResult (result12go resultBookaway : Except String (List JsRow))
    (pageNum limitNum : Int) : CombinedResponse :=
  let rows12 := match result12go with | .ok rows => rows | .error _ => []
  let rowsBA := match resultBookaway with | .ok rows => rows | .error _ => []
  let twelveGoData := processResults rows12 "12go"
  let bookawayData := processResults rowsBA "bookaway"
  let total := twelveGoData.total + bookawayData.total
  { data := twelveGoData.items ++ bookawayData.items
    pagination := [("page", JsVal.num pageNum), ("limit", JsVal.num limitNum),
                   ("total", JsVal.num total),
                   ("totalPages", JsVal.num (mathCeilDiv total limitNum))] }

/-- The pagination metadata of the `/api/:provider/trips` response
(`src/server.js:548-561`): all six fields `total`, `page`, `limit`,
`totalPages`, `hasNextPage`, `hasPrevPage` in object-literal order. -/
def providerTripsPagination (total page limit : Int) : List (String × JsVal) :=
  let totalPages := mathCeilDiv total limit
  [("total", JsVal.num total), ("page", JsVal.num page), ("limit", JsVal.num limit),
   ("totalPages", JsVal.num totalPages),
   ("hasNextPage", JsVal.bool (decide (page < totalPages))),
   ("hasPrevPage", JsVal.bool (decide (page > 1)))]

/-- The page clamp of the `/api/combined-trips` handler
(`src/server.js:859`): `Math.max(1, parseInt(page))`; a `NaN` parse
(`none`) propagates as `NaN` exactly as `Math.max` does. -/
def combinedPageNum (page : Option Int) : Option Int :=
  page.map (fun v => max 1 v)

/-- The limit clamp of the `/api/combined-trips` handler
(`src/server.js:860`): `Math.min(100, Math.max(1, parseInt(limit)))`. -/
def combinedLimitNum (limit : Option Int) : Option Int :=
  limit.map (fun v => min 100 (max 1 v))

/-- The page parsing of the `/api/:provider/trips` handler
(`src/server.js:502`): `parseInt(req.query.page) || 1` — no clamping, a
falsy parse (absent, `NaN` or `0`) falls back to `1`, every other
integer is used as supplied. -/
def providerTripsPage (raw : Option String) : Int :=
  jsOrInt (raw.bind jsParseInt) 1

/-- The limit parsing of the `/api/:provider/trips` handler
(`src/server.js:503`): `parseInt(req.query.limit) || 10` — no upper
bound is applied. -/
def providerTripsLimit (raw : Option String) : Int :=
  jsOrInt (raw.bind jsParseInt) 10

/-- The cache statistics record of the migrateomio server variant
(`src/migrateomio.js:1180-1186`): hit, miss and eviction counters, the
tracked byte size and the last-eviction timestamp. -/
structure MigrateCacheStats where
  hits : Nat
  misses : Nat
  evictions : Nat
  currentSize : Int
  lastEviction : Option String
deriving DecidableEq, Repr

/-- The initial statistics of the migrateomio variant
(`src/migrateomio.js:1180-1186`). -/
def migrateCacheStats0 : MigrateCacheStats :=
  { hits := 0, misses := 0, evictions := 0, currentSize := 0, lastEviction := none }

/-- The `dispose` callback installed on the migrateomio LRU cache
(`src/migrateomio.js:1217-1223`), run by the store on every eviction:
it increments the eviction counter, records the eviction timestamp and
subtracts the entry's size (floored at zero). -/
def disposeEntry (st : MigrateCacheStats) (now : String) (size : Int) : MigrateCacheStats :=
  { st with evictions := st.evictions + 1
            lastEviction := some now
            currentSize := max 0 (st.currentSize - size) }

/-- The statistics update of `getFromCache` in the migrateomio variant
(`src/migrateomio.js:1244-1260`): a present value counts a hit, an
absent one a miss. -/
def recordGet (st : MigrateCacheStats) (hit : Bool) : MigrateCacheStats :=
  if hit then { st with hits := st.hits + 1 } else { st with misses := st.misses + 1 }

/-- The statistics update of `setInCache` in the migrateomio variant
(`src/migrateomio.js:1263-1278`): the computed entry size is added to
the tracked byte usage. -/
def recordSet (st : MigrateCacheStats) (size : Int) : MigrateCacheStats :=
  { st with currentSize := st.currentSize + size }

/-- Two-decimal display of `num / denom` used in the stats endpoint's
derived strings (`toFixed(2)`), modelled by truncating integer
arithmetic; the exact rounding of the display strings is irrelevant to
the counter properties. -/
def toFixed2 (num denom : Int) : String :=
  let scaled := (num * 100).ediv denom
  toString (scaled.ediv 100) ++ "." ++
    (let frac := (scaled.emod 100).natAbs
     (if frac < 10 then "0" else "") ++ toString frac)

/-- The `/api/cache-stats` response of the migrateomio variant
(`src/migrateomio.js:1230-1241`): the spread of the statistics record
followed by the derived display fields, as an ordered member list. -/
def cacheStatsResponse (st : MigrateCacheStats) (itemCount maxItems : Nat)
    (maxSizeBytes : Int) : List (String × JsVal) :=
  [("hits", JsVal.num st.hits), ("misses", JsVal.num st.misses),
   ("evictions", JsVal.num st.evictions), ("currentSize", JsVal.num st.currentSize),
   ("lastEviction", match st.lastEviction with | some s => JsVal.str s | none => JsVal.null),
   ("size", JsVal.str (toFixed2 st.currentSize (1024 * 1024) ++ "MB")),
   ("maxSize", JsVal.str (toFixed2 maxSizeBytes (1024 * 1024) ++ "MB")),
   ("itemCount", JsVal.num itemCount), ("maxItems", JsVal.num maxItems),
   ("hitRate", JsVal.str (if st.hits + st.misses > 0
      then toFixed2 (st.hits * 100) (st.hits + st.misses) ++ "%" else "0%"))]

/-- The field names of the `cacheStats` object of the `src/server.js`
variant (`src/server.js:62-66`): only hit and miss counters — no
eviction counter and no eviction timestamp exist in that variant. -/
def serverCacheStatsKeys : List String := ["hits", "misses"]

/-- The option names passed to the `LRUCache` constructor of the
`src/server.js` variant (`src/server.js:68-72`): only `max` and `ttl` —
no `dispose` callback is installed, so evictions there update no
counter and no timestamp. -/
def serverLruCacheOptionKeys : List String := ["max", "ttl"]

/-- A trip row as used by the unnamed server file's per-origin,
per-destination and per-route handlers, which filter on the two route
columns. -/
structure Trip where
  origin : String
  destination : String
deriving DecidableEq, Repr

/-- A JavaScript runtime error thrown while evaluating a handler. -/
inductive JsError where
  | referenceError (name : String)
deriving DecidableEq, Repr

/-- The value bound to a top-level identifier of the unnamed server
file: either some object whose internals the handlers do not reach
before failing, or a map from cache-key to trip list (the shape the
`tripCacheMap.get('allTrips')` reads expect). -/
inductive EnvVal where
  | obj
  | tripMap (entries : List (String × List Trip))
deriving DecidableEq, Repr

/-- The identifiers declared at the top level of the unnamed server file
`src/unnamed/part_000` (its `const` declarations, lines 1-44): the
identifier `tripCacheMap` is not among them, and no other line of the
file declares or assigns it. -/
def part000TopLevelConsts : List String :=
  ["express", "cors", "Pool", "dotenv", "LRUCache", "app", "port", "pool",
   "CACHE_DURATION", "MAX_CACHE_ITEMS", "MAX_CACHE_SIZE", "lruCache"]

/-- The top-level environment of `src/unnamed/part_000`: every declared
identifier bound to its (for these claims, opaque) value. -/
def part000Env : List (String × EnvVal) :=
  part000TopLevelConsts.map (fun n => (n, EnvVal.obj))

/-- Evaluation of an identifier: reading a name that is not declared in
the enclosing scopes throws a `ReferenceError`, as JavaScript does. -/
def evalVar (env : List (String × EnvVal)) (name : String) : Except JsError EnvVal :=
  match env.lookup name with
  | some v => Except.ok v
  | none => Except.error (JsError.referenceError name)

/-- The outcome a handler of `src/unnamed/part_000` produces when it
does not throw: a JSON trip list or a 404. -/
inductive HandlerResult where
  | json (trips : List Trip)
  | notFound (msg : String)
deriving DecidableEq, Repr

/-- The `allTrips` read `tripCacheMap.get('allTrips')` performed inside
the cache branches, once the identifier has been resolved. -/
def tripMapAllTrips (v : EnvVal) : List Trip :=
  match v with
  | EnvVal.tripMap entries => (entries.lookup "allTrips").getD []
  | EnvVal.obj => []

/-- The `tripCacheMap.has('allTrips')` test, once the identifier has
been resolved. -/
def tripMapHasAllTrips (v : EnvVal) : Bool :=
  match v with
  | EnvVal.tripMap entries => (entries.lookup "allTrips").isSome
  | EnvVal.obj => false

/-- The `/api/trips/from/:origin` handler of `src/unnamed/part_000`
(lines 157-178): when `lruCache.get` returns a cached value the hit
branch evaluates `tripCacheMap.get('allTrips')` and filters it by
origin; otherwise the database rows matching the origin are returned,
with a 404 for an empty result. -/
def tripsFromOrigin (env : List (String × EnvVal)) (lruCached : Option (List Trip))
    (origin : String) (dbRows : List Trip) : Except JsError HandlerResult :=
  match lruCached with
  | some _ => do
      let m ← evalVar env "tripCacheMap"
      Except.ok (HandlerResult.json ((tripMapAllTrips m).filter (fun t => t.origin = origin)))
  | none =>
      let rows := dbRows.filter (fun t => t.origin = origin)
      if rows.isEmpty then Except.ok (HandlerResult.notFound "No trips found for this origin")
      else Except.ok (HandlerResult.json rows)

/-- The `/api/trips/to/:destination` handler of `src/unnamed/part_000`
(lines 181-200): its guard `if (tripCacheMap.has('allTrips'))` evaluates
`tripCacheMap` on every request, before any database access. -/
def tripsToDestination (env : List (String × EnvVal)) (destination : String)
    (dbRows : List Trip) : Except JsError HandlerResult := do
  let m ← evalVar env "tripCacheMap"
  if tripMapHasAllTrips m then
    Except.ok (HandlerResult.json ((tripMapAllTrips m).filter (fun t => t.destination = destination)))
  else
    let rows := dbRows.filter (fun t => t.destination = destination)
    if rows.isEmpty then Except.ok (HandlerResult.notFound "No trips found for this destination")
    else Except.ok (HandlerResult.json rows)

/-- The `/api/trips/route/:from/:to` handler of `src/unnamed/part_000`
(lines 203-222): the same `tripCacheMap.has('allTrips')` guard runs on
every request. -/
def tripsByRoute (env : List (String × EnvVal)) (fromLoc toLoc : String)
    (dbRows : List Trip) : Except JsError HandlerResult := do
  let m ← evalVar env "tripCacheMap"
  if tripMapHasAllTrips m then
    Except.ok (HandlerResult.json ((tripMapAllTrips m).filter
      (fun t => t.origin = fromLoc && t.destination = toLoc)))
  else
    let rows := dbRows.filter (fun t => t.origin = fromLoc && t.destination = toLoc)
    if rows.isEmpty then
      Except.ok (HandlerResult.notFound ("No trips found from " ++ fromLoc ++ " to " ++ toLoc))
    else Except.ok (HandlerResult.json rows)

/-- JavaScript object field assignment: a later duplicate key overwrites
the earlier value in place, otherwise the field is appended — the way
node-postgres materialises `SELECT *, ... as total_count` into one row
object. -/
def jsSetField : JsRow → String → JsVal → JsRow
  | [], k, v => [(k, v)]
  | (k', v') :: rest, k, v =>
    if k' = k then (k, v) :: rest else (k', v') :: jsSetField rest k v

/-- Semantic model of PostgreSQL executing a query built by `buildQuery`
(`src/server.js:976-988`): `matching` is the list of table rows
satisfying the `WHERE` conditions in `ORDER BY` order; the scalar
subquery repeats the same `WHERE`, so every returned row carries
`total_count` equal to the number of all matching rows; `LIMIT` and
`OFFSET` slice the ordered matching rows. -/
def execCombinedQuery (matching : List JsRow) (limit offset : Nat) : List JsRow :=
  ((matching.drop offset).take limit).map
    (fun r => jsSetField r "total_count" (JsVal.num matching.length))

/-- A bookaway row as the combined-trips query returns it: the
`bookaway_trips` columns referenced by `buildQuery`
(`from_location`, `to_location`, `operator_name`) plus the appended
`total_count`; no `provider` column is present. -/
def bookawayRowX : JsRow :=
  [("from_location", JsVal.str "Bangkok"), ("to_location", JsVal.str "Chiang Mai"),
   ("operator_name", JsVal.str "Oriental Coach"), ("total_count", JsVal.num 1)]

/-- Three 12go rows each carrying `total_count = 10`, as a page of a
filtered query whose full match count is ten. -/
def twelveGoRows3 : List JsRow :=
  [[("id", JsVal.num 1), ("origin", JsVal.str "Bangkok"), ("total_count", JsVal.num 10)],
   [("id", JsVal.num 2), ("origin", JsVal.str "Bangkok"), ("total_count", JsVal.num 10)],
   [("id", JsVal.num 3), ("origin", JsVal.str "Bangkok"), ("total_count", JsVal.num 10)]]

/-- Two table rows matching some filter, used to exercise the
page-dependence of the reported total. -/
def matchingRows2 : List JsRow :=
  [[("id", JsVal.num 1), ("origin", JsVal.str "Bangkok")],
   [("id", JsVal.num 2), ("origin", JsVal.str "Bangkok")]]

/-- A concrete combined-trips filter spec. -/
def c1SpecA : CombinedFilters :=
  { origins := ["Bangkok", "Chiang Mai"], destinations := ["Phuket"],
    transportTypes := [], operatorNames := ["Oriental Coach"],
    travel_date := some "05-01-2025", start_date := none, end_date := none,
    timeline := some "last 7 days", sort_by := "price_inr", sort_order := "desc",
    limitNum := 50, offset := 0 }

/-- A second filter spec of the same shape as `c1SpecA` but with
different (and hostile) filter values. -/
def c1SpecB : CombinedFilters :=
  { origins := ["Ayutthaya", "; DROP TABLE trips--"], destinations := ["Krabi"],
    transportTypes := [], operatorNames := ["Sombat Tour"],
    travel_date := some "21-12-2025", start_date := none, end_date := none,
    timeline := some "last 7 days", sort_by := "price_inr", sort_order := "desc",
    limitNum := 50, offset := 0 }

lemma lookup_pagination_total (p l t tp : JsVal) :
    List.lookup "total" [("page", p), ("limit", l), ("total", t), ("totalPages", tp)] = some t := rfl

/-- Claim C9: the cache-hit branch of `GET /api/trips/from/:origin`
reads `tripCacheMap`, an identifier that is not declared anywhere in
`src/unnamed/part_000`, so whenever the LRU cache holds the key the
branch throws a `ReferenceError` instead of returning the cached trips;
the cache branches of `GET /api/trips/to/:destination` and
`GET /api/trips/route/:from/:to` evaluate the same undeclared
identifier in their guard, so they throw on every request and can never
serve a cached response. -/
theorem tripCacheMap_reference_error (cached : List Trip)
    (origin destination fromLoc toLoc : String) (db₁ db₂ db₃ : List Trip) :
    part000TopLevelConsts.contains "tripCacheMap" = false ∧
    tripsFromOrigin part000Env (some cached) origin db₁ =
      Except.error (JsError.referenceError "tripCacheMap") ∧
    tripsToDestination part000Env destination db₂ =
      Except.error (JsError.referenceError "tripCacheMap") ∧
    tripsByRoute part000Env fromLoc toLoc db₃ =
      Except.error (JsError.referenceError "tripCacheMap") :=
  ⟨by decide, rfl, rfl, rfl⟩

/-- Claim C4: evaluation of the merging stage of `/api/combined-trips`
at a failing input.  A bookaway row with no `provider` field passes
through `processResults` untagged — the handler strips `total_count`
and adds nothing, and `processResults` ignores its `source` argument
entirely — so the returned data row carries no tag identifying its
provider, contradicting the claim. -/
theorem combined_trips_rows_untagged :
    (combinedTripsResult (Except.ok []) (Except.ok [bookawayRowX]) 1 50).data =
      [[("from_location", JsVal.str "Bangkok"), ("to_location", JsVal.str "Chiang Mai"),
        ("operator_name", JsVal.str "Oriental Coach")]] ∧
    ((combinedTripsResult (Except.ok []) (Except.ok [bookawayRowX]) 1 50).data.all
      (fun r => (List.lookup "provider" r).isNone)) = true ∧
    processResults [bookawayRowX] "bookaway" = processResults [bookawayRowX] "12go" := by
  decide

/-- Claim C7 counterexample: the `/api/combined-trips` pagination object
carries only `page`, `limit`, `total` and `totalPages` — it has no
`hasNextPage` and no `hasPrevPage` member — so the claim that every
trip-listing response carries all six fields fails on this endpoint. -/
theorem combined_pagination_missing_fields :
    (combinedTripsResult (Except.ok []) (Except.ok []) 1 50).pagination.map Prod.fst =
      ["page", "limit", "total", "totalPages"] ∧
    List.lookup "hasNextPage" (combinedTripsResult (Except.ok []) (Except.ok []) 1 50).pagination
      = none ∧
    List.lookup "hasPrevPage" (combinedTripsResult (Except.ok []) (Except.ok []) 1 50).pagination
      = none := by
  decide

/-- Claim C7 (amended): the `/api/:provider/trips` response carries all
six pagination fields `total`, `page`, `limit`, `totalPages`,
`hasNextPage`, `hasPrevPage`, while the `/api/combined-trips`
pagination object carries exactly the four fields `page`, `limit`,
`total`, `totalPages`. -/
theorem pagination_metadata_fields (total page limit pageNum limitNum : Int)
    (r12 rBA : Except String (List JsRow)) :
    (providerTripsPagination total page limit).map Prod.fst =
      ["total", "page", "limit", "totalPages", "hasNextPage", "hasPrevPage"] ∧
    (combinedTripsResult r12 rBA pageNum limitNum).pagination.map Prod.fst =
      ["page", "limit", "total", "totalPages"] :=
  ⟨rfl, rfl⟩

/-- Claim C5 counterexample: the trip-listing endpoint
`/api/:provider/trips` does not clamp its pagination parameters —
`limit=1000` is used as supplied (well above the configured maximum of
100 used elsewhere) and `page=-3` stays below 1. -/
theorem provider_trips_not_clamped :
    providerTripsLimit (some "1000") = 1000 ∧
    ¬ providerTripsLimit (some "1000") ≤ 100 ∧
    providerTripsPage (some "-3") = -3 ∧
    providerTripsPage (some "-3") < 1 := by
  decide

/-- Claim C5 (amended): the `/api/combined-trips` handler clamps its
pagination parameters — the effective page is `max 1 page` (hence at
least 1) and the effective limit is `min 100 (max 1 limit)` (hence
between 1 and 100), and `page=0, limit=1000` yields page 1 and limit
100 — while `/api/:provider/trips` only replaces falsy parses (`page=0`
becomes 1 via `|| 1`) and applies no upper bound: `limit=1000` is used
unchanged. -/
theorem pagination_clamping (p l : Int) :
    combinedPageNum (some p) = some (max 1 p) ∧
    (1 : Int) ≤ max 1 p ∧
    combinedLimitNum (some l) = some (min 100 (max 1 l)) ∧
    min 100 (max 1 l) ≤ 100 ∧
    (1 : Int) ≤ min 100 (max 1 l) ∧
    combinedPageNum (jsParseInt "0") = some 1 ∧
    combinedLimitNum (jsParseInt "1000") = some 100 ∧
    providerTripsPage (some "0") = 1 ∧
    providerTripsLimit (some "1000") = 1000 :=
  ⟨rfl, le_max_left 1 p, rfl, min_le_left _ _,
   le_min (by norm_num) (le_max_left 1 l),
   by decide, by decide, by decide, by decide⟩

/-- Claim C2 counterexample: the multi-value selections `origin=A,B` and
`origin=B,A` are permutations of the same logical filter, yet the
handler stringifies the split arrays in request order without
canonicalisation, so the two requests derive different cache keys. -/
theorem cacheKey_not_permutation_invariant :
    (parseListParam (some "A,B")).Perm (parseListParam (some "B,A")) ∧
    combinedCacheKey (parseListParam (some "A,B")) [] [] [] none none none none
        1 50 "departure_time" "ASC" ≠
      combinedCacheKey (parseListParam (some "B,A")) [] [] [] none none none none
        1 50 "departure_time" "ASC" := by
  decide

/-- Claim C2 (amended): the cache key is a pure deterministic function
of the parsed filter spec — two raw requests whose multi-value
parameters split to the same arrays (in the same order) and that agree
on the remaining parameters derive the same key, and every key is
prefixed with the endpoint name `combined_trips_` — but permutations of
a multi-value selection are not canonicalised and may derive different
keys. -/
theorem cacheKey_deterministic (o₁ o₂ d₁ d₂ op₁ op₂ tt₁ tt₂ : Option String)
    (timeline start_date end_date travel_date : Option String)
    (pageNum limitNum : Int) (sort_by sort_order : String)
    (ho : parseListParam o₁ = parseListParam o₂)
    (hd : parseListParam d₁ = parseListParam d₂)
    (hop : parseListParam op₁ = parseListParam op₂)
    (htt : parseListParam tt₁ = parseListParam tt₂) :
    combinedCacheKey (parseListParam o₁) (parseListParam d₁) (parseListParam op₁)
        (parseListParam tt₁) timeline start_date end_date travel_date
        pageNum limitNum sort_by sort_order =
      combinedCacheKey (parseListParam o₂) (parseListParam d₂) (parseListParam op₂)
        (parseListParam tt₂) timeline start_date end_date travel_date
        pageNum limitNum sort_by sort_order ∧
    ∃ rest,
      combinedCacheKey (parseListParam o₁) (parseListParam d₁) (parseListParam op₁)
        (parseListParam tt₁) timeline start_date end_date travel_date
        pageNum limitNum sort_by sort_order = "combined_trips_" ++ rest := by
  rw [ho, hd, hop, htt]
  exact ⟨rfl, _, rfl⟩

/-- Witness for `cacheKey_deterministic`: an absent `origin` parameter
and an empty `origin=` parameter parse to the same (empty) filter array
and derive the same cache key. -/
theorem cacheKey_deterministic_witness :
    (parseListParam none = parseListParam (some "") ∧
     parseListParam (some "Bangkok") = parseListParam (some "Bangkok")) ∧
    (combinedCacheKey (parseListParam none) (parseListParam (some "Bangkok"))
        (parseListParam none) (parseListParam none) none none none none
        1 50 "departure_time" "ASC" =
      combinedCacheKey (parseListParam (some "")) (parseListParam (some "Bangkok"))
        (parseListParam none) (parseListParam none) none none none none
        1 50 "departure_time" "ASC" ∧
     ∃ rest,
       combinedCacheKey (parseListParam none) (parseListParam (some "Bangkok"))
         (parseListParam none) (parseListParam none) none none none none
         1 50 "departure_time" "ASC" = "combined_trips_" ++ rest) :=
  ⟨⟨by decide, rfl⟩,
   cacheKey_deterministic none (some "") (some "Bangkok") (some "Bangkok")
     none none none none none none none none 1 50 "departure_time" "ASC"
     (by decide) rfl (by decide) (by decide)⟩

/-- Claim C8 counterexample: in the `src/server.js` variant the cache
statistics record holds only hit and miss counters — there is no
eviction counter and no last-eviction timestamp — and its `LRUCache` is
constructed without a `dispose` callback, so its evictions (the cache
is bounded at 50 items) increment nothing and record nothing. -/
theorem server_variant_lacks_eviction_stats :
    serverCacheStatsKeys = ["hits", "misses"] ∧
    serverCacheStatsKeys.contains "evictions" = false ∧
    serverCacheStatsKeys.contains "lastEviction" = false ∧
    serverLruCacheOptionKeys.contains "dispose" = false := by
  decide

/-- Claim C8 (amended): in the migrateomio server variant every
eviction runs the `dispose` callback, which increments the eviction
counter and records the eviction timestamp; cache reads and writes
never decrease the hit, miss or eviction counters; and the
`/api/cache-stats` query exposes all of them read-only. -/
theorem eviction_observability (st : MigrateCacheStats) (now : String) (size : Int)
    (hit : Bool) (itemCount maxItems : Nat) (maxSizeBytes : Int) :
    (disposeEntry st now size).evictions = st.evictions + 1 ∧
    (disposeEntry st now size).lastEviction = some now ∧
    (disposeEntry st now size).hits = st.hits ∧
    (disposeEntry st now size).misses = st.misses ∧
    st.hits ≤ (recordGet st hit).hits ∧
    st.misses ≤ (recordGet st hit).misses ∧
    (recordGet st hit).evictions = st.evictions ∧
    (recordSet st size).hits = st.hits ∧
    (recordSet st size).misses = st.misses ∧
    (recordSet st size).evictions = st.evictions ∧
    List.lookup "hits" (cacheStatsResponse st itemCount maxItems maxSizeBytes) =
      some (JsVal.num st.hits) ∧
    List.lookup "misses" (cacheStatsResponse st itemCount maxItems maxSizeBytes) =
      some (JsVal.num st.misses) ∧
    List.lookup "evictions" (cacheStatsResponse st itemCount maxItems maxSizeBytes) =
      some (JsVal.num st.evictions) ∧
    List.lookup "lastEviction" (cacheStatsResponse st itemCount maxItems maxSizeBytes) =
      some (match st.lastEviction with | some s => JsVal.str s | none => JsVal.null) := by
  refine ⟨rfl, rfl, rfl, rfl, ?_, ?_, ?_, rfl, rfl, rfl, rfl, rfl, rfl, rfl⟩ <;>
    cases hit <;> simp [recordGet]

lemma processResults_nil (source : String) : processResults [] source = { items := [], total := 0 } :=
  rfl

lemma processResults_ne_nil (results : List JsRow) (source : String) (h : results ≠ []) :
    processResults results source =
      { items := results.map stripTotalCount, total := rowTotalCount results } := by
  unfold processResults
  rw [if_neg]
  simpa [List.isEmpty_iff] using h

/-- Claim C3: when one provider's query fails and the other succeeds,
the `/api/combined-trips` handler still produces a response (the
per-provider `.catch` turns the failure into an empty row list, so no
exception propagates): the failed provider contributes no items and
total 0, every row of the surviving provider is returned (minus its
`total_count` field), and the reported total is the surviving
provider's first-row `total_count` plus the failed provider's 0. -/
theorem combined_trips_provider_failure (rowsA : List JsRow) (e : String) (p l : Int)
    (h : rowsA ≠ []) :
    (combinedTripsResult (Except.ok rowsA) (Except.error e) p l).data =
      rowsA.map stripTotalCount ∧
    List.lookup "total" (combinedTripsResult (Except.ok rowsA) (Except.error e) p l).pagination =
      some (JsVal.num (rowTotalCount rowsA)) ∧
    (combinedTripsResult (Except.error e) (Except.ok rowsA) p l).data =
      rowsA.map stripTotalCount ∧
    List.lookup "total" (combinedTripsResult (Except.error e) (Except.ok rowsA) p l).pagination =
      some (JsVal.num (rowTotalCount rowsA)) := by
  have hA := processResults_ne_nil rowsA "12go" h
  have hB := processResults_ne_nil rowsA "bookaway" h
  unfold combinedTripsResult
  rw [lookup_pagination_total, lookup_pagination_total]
  simp [hA, hB, processResults_nil]

/-- Witness for `combined_trips_provider_failure`: provider A returns 3
rows each carrying `total_count = 10` and provider B fails; the
response holds exactly the 3 rows of A and reports total 10. -/
theorem combined_trips_provider_failure_witness :
    twelveGoRows3 ≠ [] ∧
    ((combinedTripsResult (Except.ok twelveGoRows3) (Except.error "connection refused") 1 50).data =
        twelveGoRows3.map stripTotalCount ∧
      List.lookup "total"
        (combinedTripsResult (Except.ok twelveGoRows3) (Except.error "connection refused") 1 50).pagination =
        some (JsVal.num (rowTotalCount twelveGoRows3)) ∧
      (combinedTripsResult (Except.error "connection refused") (Except.ok twelveGoRows3) 1 50).data =
        twelveGoRows3.map stripTotalCount ∧
      List.lookup "total"
        (combinedTripsResult (Except.error "connection refused") (Except.ok twelveGoRows3) 1 50).pagination =
        some (JsVal.num (rowTotalCount twelveGoRows3))) ∧
    (combinedTripsResult (Except.ok twelveGoRows3) (Except.error "connection refused") 1 50).data.length = 3 ∧
    rowTotalCount twelveGoRows3 = 10 :=
  ⟨by decide,
   combined_trips_provider_failure twelveGoRows3 "connection refused" 1 50 (by decide),
   by decide, by decide⟩

lemma lookup_jsSetField (r : JsRow) (k : String) (v : JsVal) :
    List.lookup k (jsSetField r k v) = some v := by
  induction r with
  | nil => simp [jsSetField, List.lookup]
  | cons kv rest ih =>
    obtain ⟨k', v'⟩ := kv
    by_cases h : k' = k
    · simp [jsSetField, h, List.lookup]
    · simp only [jsSetField, if_neg h, List.lookup]
      rw [show (k == k') = false from beq_eq_false_iff_ne.mpr (fun hh => h hh.symm)]
      exact ih

/-- Claim C10: each provider's reported total is read from the
`total_count` column of the first returned row, and that column holds
the count of all rows matching the filters; consequently a page past
the last matching row returns no rows and a reported total of 0 even
though matching rows exist, so the reported total (and hence
`totalPages`) depends on the requested page, not only on the
filters. -/
theorem combined_total_depends_on_page (matching : List JsRow) (limit offset : Nat)
    (p l : Int) (hl : 0 < limit) :
    List.lookup "total"
      (combinedTripsResult (Except.ok (execCombinedQuery matching limit offset))
        (Except.ok []) p l).pagination =
      some (JsVal.num (if offset < matching.length then (matching.length : Int) else 0)) := by
  unfold combinedTripsResult
  rw [lookup_pagination_total, processResults_nil]
  by_cases hoff : offset < matching.length
  · have hdrop : matching.drop offset ≠ [] := by
      intro hc
      have := List.drop_eq_nil_iff.mp hc
      omega
    obtain ⟨a, tl, htl⟩ := List.exists_cons_of_ne_nil hdrop
    obtain ⟨k, rfl⟩ := Nat.exists_eq_succ_of_ne_zero (Nat.pos_iff_ne_zero.mp hl)
    have hexec : execCombinedQuery matching (k + 1) offset =
        jsSetField a "total_count" (JsVal.num matching.length) ::
          (tl.take k).map (fun r => jsSetField r "total_count" (JsVal.num matching.length)) := by
      unfold execCombinedQuery
      rw [htl]
      simp [List.take_succ_cons]
    rw [hexec, processResults_ne_nil _ _ (by simp)]
    simp only [rowTotalCount, List.head?_cons, lookup_jsSetField]
    simp [hoff]
  · have hdrop : matching.drop offset = [] :=
      List.drop_eq_nil_of_le (by omega)
    have hexec : execCombinedQuery matching limit offset = [] := by
      unfold execCombinedQuery
      rw [hdrop]
      simp
    rw [hexec, processResults_nil]
    simp [hoff]

/-- Witness for `combined_total_depends_on_page`: two matching rows;
requesting offset 0 reports total 2, requesting offset 5 reports total
0 for the same filters. -/
theorem combined_total_depends_on_page_witness :
    0 < 50 ∧
    List.lookup "total"
      (combinedTripsResult (Except.ok (execCombinedQuery matchingRows2 50 0))
        (Except.ok []) 1 50).pagination = some (JsVal.num 2) ∧
    List.lookup "total"
      (combinedTripsResult (Except.ok (execCombinedQuery matchingRows2 50 5))
        (Except.ok []) 3 50).pagination = some (JsVal.num 0) :=
  ⟨by decide,
   (combined_total_depends_on_page matchingRows2 50 0 1 50 (by decide)).trans (by decide),
   (combined_total_depends_on_page matchingRows2 50 5 3 50 (by decide)).trans (by decide)⟩

lemma jsMapIdx_congr (g : Nat → String) :
    ∀ (vs vs' : List String) (i : Nat), vs.length = vs'.length →
      jsMapIdx g vs i = jsMapIdx g vs' i := by
  intro vs
  induction vs with
  | nil =>
    intro vs' i h
    cases vs' with
    | nil => rfl
    | cons b t => simp at h
  | cons a t ih =>
    intro vs' i h
    cases vs' with
    | nil => simp at h
    | cons b t' =>
      simp only [jsMapIdx]
      rw [ih t' (i + 1) (by simpa using h)]

lemma addInFilter_params (c : String) (vs : List String) (acc : BuildAcc) :
    (addInFilter c vs acc).params = acc.params ++ vs.map JsVal.str := by
  cases vs with
  | nil => simp [addInFilter]
  | cons a t => simp [addInFilter]

lemma addInFilter_shape (c : String) (vs vs' : List String) (acc acc' : BuildAcc)
    (hv : vs.length = vs'.length) (hc : acc.conditions = acc'.conditions)
    (hp : acc.paramIndex = acc'.paramIndex) :
    (addInFilter c vs acc).conditions = (addInFilter c vs' acc').conditions ∧
    (addInFilter c vs acc).paramIndex = (addInFilter c vs' acc').paramIndex := by
  by_cases h : vs.length > 0
  · have h' : vs'.length > 0 := hv ▸ h
    unfold addInFilter
    rw [if_pos h, if_pos h']
    refine ⟨?_, ?_⟩
    · rw [hc, hp, jsMapIdx_congr _ vs vs' 0 hv]
    · rw [hp, hv]
  · have h' : ¬ vs'.length > 0 := hv ▸ h
    unfold addInFilter
    rw [if_neg h, if_neg h']
    exact ⟨hc, hp⟩

lemma addTravelDate_params (td : Option String) (acc : BuildAcc) :
    (addTravelDate td acc).params = acc.params ++
      (if jsTruthy td then [JsVal.str (formatTravelDate (td.getD ""))] else []) := by
  by_cases h : jsTruthy td <;> simp [addTravelDate, h]

lemma addTravelDate_shape (td td' : Option String) (acc acc' : BuildAcc)
    (hv : jsTruthy td = jsTruthy td') (hc : acc.conditions = acc'.conditions)
    (hp : acc.paramIndex = acc'.paramIndex) :
    (addTravelDate td acc).conditions = (addTravelDate td' acc').conditions ∧
    (addTravelDate td acc).paramIndex = (addTravelDate td' acc').paramIndex := by
  by_cases h : jsTruthy td = true
  · have h' : jsTruthy td' = true := hv ▸ h
    unfold addTravelDate
    rw [if_pos h, if_pos h']
    exact ⟨by rw [hc, hp], by rw [hp]⟩
  · have h' : ¬ jsTruthy td' = true := hv ▸ h
    unfold addTravelDate
    rw [if_neg h, if_neg h']
    exact ⟨hc, hp⟩

lemma addDateRange_params (sd ed tl : Option String) (acc : BuildAcc) :
    (addDateRange sd ed tl acc).params = acc.params ++
      (if jsTruthy sd && jsTruthy ed
       then [JsVal.str (sd.getD ""), JsVal.str (ed.getD "")] else []) := by
  by_cases h : jsTruthy sd && jsTruthy ed
  · simp [addDateRange, h]
  · by_cases h2 : jsTruthy tl <;> simp [addDateRange, h, h2]

lemma addDateRange_shape (sd ed tl sd' ed' tl' : Option String) (acc acc' : BuildAcc)
    (hv : (jsTruthy sd && jsTruthy ed) = (jsTruthy sd' && jsTruthy ed'))
    (htl : tl = tl') (hc : acc.conditions = acc'.conditions)
    (hp : acc.paramIndex = acc'.paramIndex) :
    (addDateRange sd ed tl acc).conditions = (addDateRange sd' ed' tl' acc').conditions ∧
    (addDateRange sd ed tl acc).paramIndex = (addDateRange sd' ed' tl' acc').paramIndex := by
  by_cases h : (jsTruthy sd && jsTruthy ed) = true
  · have h' : (jsTruthy sd' && jsTruthy ed') = true := hv ▸ h
    unfold addDateRange
    rw [if_pos h, if_pos h']
    exact ⟨by rw [hc, hp], by rw [hp]⟩
  · have h' : ¬ (jsTruthy sd' && jsTruthy ed') = true := hv ▸ h
    unfold addDateRange
    rw [if_neg h, if_neg h']
    by_cases h2 : jsTruthy tl = true
    · have h2' : jsTruthy tl' = true := htl ▸ h2
      rw [if_pos h2, if_pos h2']
      exact ⟨by rw [hc, htl], hp⟩
    · have h2' : ¬ jsTruthy tl' = true := htl ▸ h2
      rw [if_neg h2, if_neg h2']
      exact ⟨hc, hp⟩

lemma buildConditions_params (t : String) (f : CombinedFilters) :
    (buildConditions t f).params =
      f.origins.map JsVal.str ++ f.destinations.map JsVal.str ++
      f.transportTypes.map JsVal.str ++ f.operatorNames.map JsVal.str ++
      (if jsTruthy f.travel_date
       then [JsVal.str (formatTravelDate (f.travel_date.getD ""))] else []) ++
      (if jsTruthy f.start_date && jsTruthy f.end_date
       then [JsVal.str (f.start_date.getD ""), JsVal.str (f.end_date.getD "")] else []) := by
  unfold buildConditions
  rw [addDateRange_params, addTravelDate_params, addInFilter_params, addInFilter_params,
    addInFilter_params, addInFilter_params]
  simp [List.append_assoc]

lemma buildConditions_shape (t : String) (f f' : CombinedFilters)
    (h1 : f.origins.length = f'.origins.length)
    (h2 : f.destinations.length = f'.destinations.length)
    (h3 : f.transportTypes.length = f'.transportTypes.length)
    (h4 : f.operatorNames.length = f'.operatorNames.length)
    (h5 : jsTruthy f.travel_date = jsTruthy f'.travel_date)
    (h6 : (jsTruthy f.start_date && jsTruthy f.end_date) =
          (jsTruthy f'.start_date && jsTruthy f'.end_date))
    (h7 : f.timeline = f'.timeline) :
    (buildConditions t f).conditions = (buildConditions t f').conditions ∧
    (buildConditions t f).paramIndex = (buildConditions t f').paramIndex := by
  unfold buildConditions
  have s1 := addInFilter_shape (if t = "trips" then "origin" else "from_location")
    f.origins f'.origins { params := [], conditions := [], paramIndex := 1 }
    { params := [], conditions := [], paramIndex := 1 } h1 rfl rfl
  have s2 := addInFilter_shape (if t = "trips" then "destination" else "to_location")
    f.destinations f'.destinations _ _ h2 s1.1 s1.2
  have s3 := addInFilter_shape "transport_type" f.transportTypes f'.transportTypes _ _ h3 s2.1 s2.2
  have s4 := addInFilter_shape "operator_name" f.operatorNames f'.operatorNames _ _ h4 s3.1 s3.2
  have s5 := addTravelDate_shape f.travel_date f'.travel_date _ _ h5 s4.1 s4.2
  exact addDateRange_shape f.start_date f.end_date f.timeline
    f'.start_date f'.end_date f'.timeline _ _ h6 h7 s5.1 s5.2

/-- Claim C1: `buildQuery` never interpolates a filter value into the
SQL text.  The produced SQL text is identical for any two filter specs
of the same shape (same number of values per multi-value filter, same
presence of the date parameters, same timeline and sort parameters) —
so no origin, destination, transport type, operator name, travel date,
start date or end date can influence the SQL text — and the ordered
parameter list consists of exactly the filter values (origins,
destinations, transport types, operator names, the reformatted travel
date, the start/end dates) followed by the limit and offset; only
code-chosen identifiers reach the SQL text. -/
theorem buildQuery_parameterizes_all_values (t : String) (f f' : CombinedFilters)
    (h1 : f.origins.length = f'.origins.length)
    (h2 : f.destinations.length = f'.destinations.length)
    (h3 : f.transportTypes.length = f'.transportTypes.length)
    (h4 : f.operatorNames.length = f'.operatorNames.length)
    (h5 : jsTruthy f.travel_date = jsTruthy f'.travel_date)
    (h6 : (jsTruthy f.start_date && jsTruthy f.end_date) =
          (jsTruthy f'.start_date && jsTruthy f'.end_date))
    (h7 : f.timeline = f'.timeline)
    (h8 : f.sort_by = f'.sort_by) (h9 : f.sort_order = f'.sort_order) :
    (buildQuery t f).query = (buildQuery t f').query ∧
    (buildQuery t f).params =
      f.origins.map JsVal.str ++ f.destinations.map JsVal.str ++
      f.transportTypes.map JsVal.str ++ f.operatorNames.map JsVal.str ++
      (if jsTruthy f.travel_date
       then [JsVal.str (formatTravelDate (f.travel_date.getD ""))] else []) ++
      (if jsTruthy f.start_date && jsTruthy f.end_date
       then [JsVal.str (f.start_date.getD ""), JsVal.str (f.end_date.getD "")] else []) ++
      [JsVal.num f.limitNum, JsVal.num f.offset] := by
  obtain ⟨hcond, hidx⟩ := buildConditions_shape t f f' h1 h2 h3 h4 h5 h6 h7
  constructor
  · unfold buildQuery
    dsimp only
    rw [hcond, hidx, h8, h9]
  · unfold buildQuery
    dsimp only
    rw [buildConditions_params]

/-- Witness for `buildQuery_parameterizes_all_values`: two specs of the
same shape, one holding an SQL-injection attempt among its origins,
produce the same SQL text, and the parameter list of the first is
exactly its filter values followed by limit and offset. -/
theorem buildQuery_parameterizes_all_values_witness :
    (c1SpecA.origins.length = c1SpecB.origins.length ∧
     c1SpecA.destinations.length = c1SpecB.destinations.length ∧
     c1SpecA.transportTypes.length = c1SpecB.transportTypes.length ∧
     c1SpecA.operatorNames.length = c1SpecB.operatorNames.length ∧
     jsTruthy c1SpecA.travel_date = jsTruthy c1SpecB.travel_date ∧
     (jsTruthy c1SpecA.start_date && jsTruthy c1SpecA.end_date) =
       (jsTruthy c1SpecB.start_date && jsTruthy c1SpecB.end_date) ∧
     c1SpecA.timeline = c1SpecB.timeline ∧
     c1SpecA.sort_by = c1SpecB.sort_by ∧ c1SpecA.sort_order = c1SpecB.sort_order) ∧
    ((buildQuery "trips" c1SpecA).query = (buildQuery "trips" c1SpecB).query ∧
     (buildQuery "trips" c1SpecA).params =
       c1SpecA.origins.map JsVal.str ++ c1SpecA.destinations.map JsVal.str ++
       c1SpecA.transportTypes.map JsVal.str ++ c1SpecA.operatorNames.map JsVal.str ++
       (if jsTruthy c1SpecA.travel_date
        then [JsVal.str (formatTravelDate (c1SpecA.travel_date.getD ""))] else []) ++
       (if jsTruthy c1SpecA.start_date && jsTruthy c1SpecA.end_date
        then [JsVal.str (c1SpecA.start_date.getD ""), JsVal.str (c1SpecA.end_date.getD "")]
        else []) ++
       [JsVal.num c1SpecA.limitNum, JsVal.num c1SpecA.offset]) :=
  ⟨⟨by decide, by decide, by decide, by decide, by decide, by decide, rfl, rfl, rfl⟩,
   buildQuery_parameterizes_all_values "trips" c1SpecA c1SpecB
     (by decide) (by decide) (by decide) (by decide) (by decide) (by decide) rfl rfl rfl⟩

lemma safeSortBy_idem (s : String) : safeSortBy (safeSortBy s) = safeSortBy s := by
  by_cases h : (["departure_time", "arrival_time", "price_inr", "duration_minutes"] :
      List String).contains s = true
  · have hs : safeSortBy s = s := by unfold safeSortBy; rw [if_pos h]
    rw [hs]
    exact hs
  · have hs : safeSortBy s = "departure_time" := by unfold safeSortBy; rw [if_neg h]
    rw [hs]
    decide

lemma safeSortOrder_idem (s : String) : safeSortOrder (safeSortOrder s) = safeSortOrder s := by
  by_cases h : (["ASC", "DESC"] : List String).contains (jsToUpper s) = true
  · have hv : jsToUpper s = "ASC" ∨ jsToUpper s = "DESC" := by simpa using h
    have hs : safeSortOrder s = jsToUpper s := by unfold safeSortOrder; rw [if_pos h]
    rw [hs]
    rcases hv with h' | h' <;> rw [h'] <;> decide
  · have hs : safeSortOrder s = "ASC" := by unfold safeSortOrder; rw [if_neg h]
    rw [hs]
    decide

/-- Claim C6: `buildQuery` produces exactly the same query and
parameters as it would for the sanitised sort pair, where a sort column
outside the whitelist `departure_time, arrival_time, price_inr,
duration_minutes` falls back to `departure_time`, and a sort direction
whose upper-casing is neither `ASC` nor `DESC` falls back to `ASC`,
with no error in either case; whitelisted values are used as given
(the direction upper-cased).  In particular the injection attempt
`"; DROP TABLE trips"` sorts by `departure_time` ascending. -/
theorem combined_sort_whitelist_fallback (t : String) (f : CombinedFilters) :
    buildQuery t f = buildQuery t
      { f with sort_by := safeSortBy f.sort_by, sort_order := safeSortOrder f.sort_order } ∧
    safeSortBy f.sort_by =
      (if ["departure_time", "arrival_time", "price_inr", "duration_minutes"].contains f.sort_by
       then f.sort_by else "departure_time") ∧
    safeSortOrder f.sort_order =
      (if ["ASC", "DESC"].contains (jsToUpper f.sort_order)
       then jsToUpper f.sort_order else "ASC") ∧
    safeSortBy "; DROP TABLE trips" = "departure_time" ∧
    safeSortOrder "bogus" = "ASC" ∧
    safeSortBy "price_inr" = "price_inr" ∧
    safeSortOrder "desc" = "DESC" := by
  refine ⟨?_, rfl, rfl, by decide, by decide, by decide, by decide⟩
  unfold buildQuery
  dsimp only
  rw [safeSortBy_idem, safeSortOrder_idem,
    show buildConditions t
        { f with sort_by := safeSortBy f.sort_by, sort_order := safeSortOrder f.sort_order } =
      buildConditions t f from rfl]
